import Mathlib

/-!
Shallow embedding of the payment-orchestration and booking-reconciliation
subsystem of the KKF web application (apps/classes/models.py,
apps/classes/payments.py, apps/classes/views.py).

Time is modelled as a natural number of seconds (`timezone.now()` becomes an
explicit `now : Nat` argument); 5 minutes is 300 seconds.  The audit trail
(`PaymentLog` rows) is modelled as a list that operations append to.  Gateway
interactions are modelled by explicit environments describing what each
network attempt would return, together with a trace counting the calls made.
-/

/-- Booking.STATUS_CHOICES in apps/classes/models.py. -/
inductive BStatus
  | Pending
  | Confirmed
  | Cancelled
  | Completed
  | Expired
deriving DecidableEq

/-- Booking.PAYMENT_STATUS_CHOICES in apps/classes/models.py. -/
inductive PayStatus
  | Unpaid
  | Pending
  | Paid
  | Refunded
  | Failed
deriving DecidableEq

/-- Booking.BOOKING_TYPE_CHOICES in apps/classes/models.py. -/
inductive BookingType
  | FreeTrial
  | Monthly
  | DropIn
deriving DecidableEq

/-- The fields of the Booking model that the payment pipeline reads or
writes (apps/classes/models.py, class Booking). -/
structure Booking where
  booking_type : BookingType
  status : BStatus
  payment_status : PayStatus
  amount_paid : ℚ
  transaction_id : Option String
  mpesa_receipt_number : Option String
  phone_number : Option String
  payment_attempts : Nat
  last_payment_attempt : Option Nat
  payment_date : Option Nat
  confirmed_at : Option Nat
  cancelled_at : Option Nat
  expires_at : Option Nat
  notes : String
deriving DecidableEq

/-- One PaymentLog row (apps/classes/models.py, class PaymentLog); only the
fields the claims are about. -/
structure PaymentLogEntry where
  action : String
  status_code : String
deriving DecidableEq

/-- Booking.confirm_payment (models.py lines 193-202): unconditionally sets
Paid/Confirmed, records the transaction id and receipt, stamps
payment_date and confirmed_at with now, and clears expires_at. -/
def Booking.confirm_payment (b : Booking) (tid receipt : String) (now : Nat) : Booking :=
  { b with
    payment_status := .Paid
    status := .Confirmed
    transaction_id := some tid
    mpesa_receipt_number := some receipt
    payment_date := some now
    confirmed_at := some now
    expires_at := none }

/-- Booking.cancel_booking (models.py lines 204-210): sets status Cancelled,
stamps cancelled_at, and appends the cancellation reason to notes. -/
def Booking.cancel_booking (b : Booking) (reason : Option String) (now : Nat) : Booking :=
  { b with
    status := .Cancelled
    cancelled_at := some now
    notes :=
      match reason with
      | some r =>
          if b.notes = "" then "Cancellation reason: " ++ r
          else b.notes ++ "\nCancellation reason: " ++ r
      | none => b.notes }

/-- Booking.mark_expired (models.py lines 212-217): sets status Expired and
payment_status Failed, appending a note.  It writes no PaymentLog entry. -/
def Booking.mark_expired (b : Booking) : Booking :=
  { b with
    status := .Expired
    payment_status := .Failed
    notes :=
      if b.notes = "" then "Expired due to payment timeout"
      else b.notes ++ "\nExpired due to payment timeout" }

/-- Booking.is_payment_expired (models.py lines 219-223): true when
expires_at is set and now is strictly past it. -/
def Booking.is_payment_expired (b : Booking) (now : Nat) : Bool :=
  match b.expires_at with
  | some e => decide (e < now)
  | none => false

example :
    (Booking.mk .Monthly .Pending .Pending 1500 (some "X") none none 1
      (some 0) none none none (some 100) "").is_payment_expired 200 = true := by decide

example :
    ((Booking.mk .Monthly .Pending .Pending 1500 (some "X") none none 1
      (some 0) none none none (some 100) "").confirm_payment "X" "R" 50).status
      = .Confirmed := by decide

/-! ## Webhook path (views.py, mpesa_callback / process_callback) -/

/-- The parsed Body.stkCallback of an M-Pesa callback payload
(views.py lines 466-496).  `metadata` is the CallbackMetadata.Item list as
(Name, Value) pairs. -/
structure StkCallback where
  result_code : Int
  checkout_request_id : String
  result_desc : String
  metadata : List (String × String)
deriving DecidableEq

/-- views.py line 496: the MpesaReceiptNumber item of the callback metadata,
defaulting to "N/A". -/
def extract_receipt (items : List (String × String)) : String :=
  match items.find? (fun i => i.1 == "MpesaReceiptNumber") with
  | some i => i.2
  | none => "N/A"

/-- The body of mpesa_callback.process_callback (views.py lines 464-549)
after the booking has been looked up by `transaction_id =
checkout_request_id`.  Logs `callback_received`; on ResultCode 0 runs
`confirm_payment` and logs `payment_confirmed`; otherwise marks the booking
Cancelled/Failed and logs `payment_failed`.  Returns the updated booking and
audit trail. -/
def process_callback (b : Booking) (log : List PaymentLogEntry) (cb : StkCallback)
    (now : Nat) : Booking × List PaymentLogEntry :=
  let log1 := log ++ [⟨"callback_received", toString cb.result_code⟩]
  if cb.result_code = 0 then
    let receipt := extract_receipt cb.metadata
    (b.confirm_payment cb.checkout_request_id receipt now,
     log1 ++ [⟨"payment_confirmed", "0"⟩])
  else
    ({ b with
        payment_status := .Failed
        status := .Cancelled
        notes := b.notes ++ "\nPayment failed: " ++ cb.result_desc ++ " (Code: "
          ++ toString cb.result_code ++ ")"
        cancelled_at := some now },
     log1 ++ [⟨"payment_failed", toString cb.result_code⟩])

/-! ## Poll path (views.py, check_payment_status) -/

/-- A successful HTTP response of MPesaPayment.query_transaction
(payments.py lines 264-313): the provider JSON may or may not carry a
ResultCode key; `receipt` is result.get with default "" as read at
views.py line 386. -/
structure QueryResult where
  result_code : Option String
  receipt : String
deriving DecidableEq

/-- The JSON responses check_payment_status can return
(views.py lines 346-437). -/
inductive PollResponse
  | confirmedResp (receipt_number : String)
  | failedResp (status : PayStatus) (booking_status : BStatus)
  | expiredResp
  | pendingResp
deriving DecidableEq

/-- Result of one poll: the (possibly updated) booking, the audit trail,
the JSON response, and whether a gateway status query was issued. -/
structure PollOut where
  booking : Booking
  log : List PaymentLogEntry
  response : PollResponse
  queried : Bool
deriving DecidableEq

/-- check_payment_status (views.py lines 333-443).  The gateway is modelled
by `q`: what MPesaPayment.query_transaction would return if called —
`none` for any failure (timeout, network error, missing cached data, failed
token, exception), `some r` for a successful query.  The five numbered
branches follow the source in order. -/
def check_payment_status (b : Booking) (now : Nat) (q : Option QueryResult)
    (log : List PaymentLogEntry) : PollOut :=
  -- 1. already confirmed via callback
  if b.status = .Confirmed ∧ b.payment_status = .Paid then
    ⟨b, log, .confirmedResp (b.mpesa_receipt_number.getD ""), false⟩
  -- 2. failed or cancelled
  else if b.payment_status = .Failed ∨ b.status = .Cancelled ∨ b.status = .Expired then
    ⟨b, log, .failedResp b.payment_status b.status, false⟩
  -- 3. timeout
  else if b.is_payment_expired now then
    ⟨if b.status = .Pending then b.mark_expired else b, log, .expiredResp, false⟩
  -- 4. still pending: query M-Pesa only if there is a transaction_id
  else if b.payment_status = .Pending ∧ b.status = .Pending then
    match b.transaction_id with
    | some tid =>
      match q with
      | some r =>
        match r.result_code with
        | some rc =>
          if rc = "0" then
            ⟨b.confirm_payment tid r.receipt now,
             log ++ [⟨"payment_confirmed_via_query", "0"⟩],
             .confirmedResp r.receipt, true⟩
          else if rc ≠ "1032" ∧ rc ≠ "1" then
            ⟨{ b with
                payment_status := .Failed
                status := .Cancelled
                cancelled_at := some now },
             log ++ [⟨"payment_failed_via_query", rc⟩],
             .failedResp .Failed .Cancelled, true⟩
          else
            ⟨b, log, .pendingResp, true⟩
        | none => ⟨b, log, .pendingResp, true⟩
      | none => ⟨b, log, .pendingResp, true⟩
    | none => ⟨b, log, .pendingResp, false⟩
  -- 5. still pending after all checks
  else
    ⟨b, log, .pendingResp, false⟩

/-! ## User cancellation (views.py, cancel_booking_view) -/

/-- cancel_booking_view (views.py lines 584-617): only bookings with status
Confirmed or Pending can be cancelled; cancellation logs `booking_cancelled`
and turns a Paid payment into Refunded.  The Bool reports whether the
cancellation was performed. -/
def cancel_booking_view (b : Booking) (log : List PaymentLogEntry) (now : Nat) :
    Booking × List PaymentLogEntry × Bool :=
  if b.status = .Confirmed ∨ b.status = .Pending then
    let b1 := b.cancel_booking (some "User requested cancellation") now
    let log1 := log ++ [⟨"booking_cancelled", "USER_CANCEL"⟩]
    if b1.payment_status = .Paid then
      ({ b1 with payment_status := .Refunded }, log1, true)
    else
      (b1, log1, true)
  else
    (b, log, false)

/-- The expiry check of payment_pending_view (views.py lines 308-311):
an expired booking whose payment is still Pending is marked expired. -/
def payment_pending_expire (b : Booking) (now : Nat) : Booking :=
  if b.is_payment_expired now ∧ b.payment_status = .Pending then b.mark_expired
  else b

/-- The failure branch of BookingCreateView (views.py lines 271-275), run
when process_class_payment reports failure: the booking is set
Cancelled/Failed with cancelled_at stamped and the notes replaced, and no
PaymentLog entry is written — the audit trail passes through unchanged. -/
def booking_create_fail (b : Booking) (code : String) (now : Nat)
    (log : List PaymentLogEntry) : Booking × List PaymentLogEntry :=
  ({ b with
      status := .Cancelled
      payment_status := .Failed
      cancelled_at := some now
      notes := "Payment initiation failed: " ++ code }, log)

/-! ## Gateway client (payments.py, class MPesaPayment) -/

/-- MPesaPayment.validate_phone_number (payments.py lines 94-106): keep only
digits, then normalize 254XXXXXXXXX, 0XXXXXXXXX, or XXXXXXXXX to the
international format; anything else is rejected. -/
def validate_phone_number (phone_number : String) : Option String :=
  let ds := phone_number.toList.filter Char.isDigit
  if ds.length = 12 ∧ ds.take 3 = ['2', '5', '4'] then some (String.mk ds)
  else if ds.length = 10 ∧ ds.take 1 = ['0'] then
    some (String.mk ('2' :: '5' :: '4' :: ds.drop 1))
  else if ds.length = 9 then some (String.mk ('2' :: '5' :: '4' :: ds))
  else none

/-- Python's int() truncation toward zero, as in int(float(amount))
(payments.py line 122). -/
def pyInt (q : ℚ) : Int :=
  if 0 ≤ q then ⌊q⌋ else ⌈q⌉

/-- Environment for MPesaPayment.get_access_token (payments.py lines 33-70):
`cached` is the token cache content; `fetches` is what each successive
network request would yield (`none` = timeout or request error). -/
structure TokenEnv where
  cached : Option String
  fetches : List (Option String)
deriving DecidableEq

/-- The retry loop of get_access_token: up to 3 attempts (max_retries = 3);
on the last attempt a failure returns None.  Also counts the network
requests made. -/
def token_fetch_loop : List (Option String) → Nat → Option String × Nat
  | [], _ => (none, 0)
  | f :: rest, attempt =>
    match f with
    | some t => (some t, 1)
    | none =>
      if attempt = 2 then (none, 1)
      else
        let (r, n) := token_fetch_loop rest (attempt + 1)
        (r, n + 1)

/-- MPesaPayment.get_access_token: a cached token is returned with no
network call; otherwise the retry loop runs.  Returns the token (if any)
and the number of token network requests made. -/
def get_access_token (env : TokenEnv) : Option String × Nat :=
  match env.cached with
  | some t => (some t, 0)
  | none => token_fetch_loop env.fetches 0

/-- What one STK-push HTTP attempt would yield
(payments.py lines 172-254). -/
inductive AttemptOutcome
  | ok200 (response_code : String) (checkout_id : String)
  | httpErr (code : Nat)
  | timeout
  | netErr
deriving DecidableEq

/-- Result of MPesaPayment.stk_push as consumed by its caller: success with
the CheckoutRequestID and the normalized phone, or a failure with its
error_code. -/
inductive StkResult
  | ok (checkout_request_id : String) (phone : String)
  | err (error_code : String)
deriving DecidableEq

/-- Counts of outbound gateway calls made during an operation. -/
structure CallTrace where
  tokenCalls : Nat
  pushCalls : Nat
  queryCalls : Nat
deriving DecidableEq

/-- The retry loop of stk_push (payments.py lines 172-254), attempt index
starting at 0 with max_retries = 3: an HTTP-200 response returns
immediately (success on ResponseCode "0", gateway rejection otherwise);
HTTP errors, timeouts and network errors retry unless this was the last
attempt.  `none` models the source falling off the loop (only possible if
fewer outcomes than attempts are supplied).  Also counts HTTP attempts
made. -/
def stk_push_loop (phone : String) :
    List AttemptOutcome → Nat → Option StkResult × Nat
  | [], _ => (none, 0)
  | o :: rest, attempt =>
    match o with
    | .ok200 rc cid =>
      if rc = "0" then (some (.ok cid phone), 1)
      else (some (.err rc), 1)
    | .httpErr c =>
      if attempt < 2 then
        let (r, n) := stk_push_loop phone rest (attempt + 1)
        (r, n + 1)
      else (some (.err ("HTTP_" ++ toString c)), 1)
    | .timeout =>
      if attempt < 2 then
        let (r, n) := stk_push_loop phone rest (attempt + 1)
        (r, n + 1)
      else (some (.err "TIMEOUT"), 1)
    | .netErr =>
      if attempt < 2 then
        let (r, n) := stk_push_loop phone rest (attempt + 1)
        (r, n + 1)
      else (some (.err "NETWORK_ERROR"), 1)

/-- MPesaPayment.stk_push (payments.py lines 108-262): validates the phone
number, then the amount, before any network interaction; then acquires a
token (AUTH_FAILED if none) and runs the HTTP retry loop.  Returns the
result and the trace of gateway calls. -/
def stk_push (tEnv : TokenEnv) (outcomes : List AttemptOutcome)
    (phone_number : String) (amount : ℚ) : Option StkResult × CallTrace :=
  match validate_phone_number phone_number with
  | none => (some (.err "INVALID_PHONE"), ⟨0, 0, 0⟩)
  | some phone =>
    if pyInt amount < 1 then (some (.err "INVALID_AMOUNT"), ⟨0, 0, 0⟩)
    else
      let (tok, tn) := get_access_token tEnv
      match tok with
      | none => (some (.err "AUTH_FAILED"), ⟨tn, 0, 0⟩)
      | some _ =>
        let (r, pn) := stk_push_loop phone outcomes 0
        (r, ⟨tn, pn, 0⟩)

/-! ## Payment orchestration (payments.py, process_class_payment) -/

/-- Outcome of process_class_payment as seen by BookingCreateView. -/
inductive ProcResult
  | freeTrialOk
  | initiated (checkout_request_id : String)
  | failed (error_code : String)
deriving DecidableEq

/-- Result of one run of process_class_payment. -/
structure ProcOut where
  booking : Booking
  log : List PaymentLogEntry
  result : ProcResult
  trace : CallTrace
deriving DecidableEq

/-- process_class_payment (payments.py lines 337-469).  `price` is
booking.karate_class.price.  A free-trial booking is confirmed immediately
with no gateway call; otherwise the attempt is logged, the STK push is
initiated, and on success the booking becomes Pending/Pending with a
5-minute (300 s) expiry, while on failure it becomes Cancelled/Failed.
`none` models the crash on an exhausted-outcome environment (the source
would subscript None). -/
def process_class_payment (b : Booking) (price : ℚ) (phone_number : String)
    (tEnv : TokenEnv) (outcomes : List AttemptOutcome)
    (log : List PaymentLogEntry) (now : Nat) : Option ProcOut :=
  if b.booking_type = .FreeTrial then
    some ⟨{ b with
        payment_status := .Paid
        status := .Confirmed
        amount_paid := 0
        payment_date := some now
        confirmed_at := some now },
      log ++ [⟨"free_trial_confirmed", "FREE_TRIAL"⟩], .freeTrialOk, ⟨0, 0, 0⟩⟩
  else
    let amount := price
    if amount ≤ 0 then
      some ⟨b, log, .failed "INVALID_AMOUNT", ⟨0, 0, 0⟩⟩
    else
      let b1 := { b with
        payment_attempts := b.payment_attempts + 1
        last_payment_attempt := some now }
      let log1 := log ++ [⟨"payment_initiated", "INITIATED"⟩]
      let (res, tr) := stk_push tEnv outcomes phone_number amount
      match res with
      | none => none
      | some (.ok cid ph) =>
        some ⟨{ b1 with
            transaction_id := some cid
            phone_number := some ph
            amount_paid := amount
            payment_status := .Pending
            status := .Pending
            expires_at := some (now + 300) },
          log1 ++ [⟨"stk_push_sent", "SUCCESS"⟩], .initiated cid, tr⟩
      | some (.err code) =>
        some ⟨{ b1 with
            payment_status := .Failed
            status := .Cancelled
            notes := "Payment failed: " ++ code
            cancelled_at := some now },
          log1 ++ [⟨"stk_push_failed", code⟩], .failed code, tr⟩

example : validate_phone_number "0712345678" = some "254712345678" := by decide

example :
    stk_push ⟨some "tok", []⟩ [.timeout, .timeout, .timeout] "0712345678" 1500
      = (some (.err "TIMEOUT"), ⟨0, 3, 0⟩) := by decide

/-! ## Reachable booking states

BookingCreateView (views.py lines 174-291) creates every booking in
Pending/Unpaid with no transaction id, no terminal timestamps and no expiry;
after that a booking is mutated only by process_class_payment, the webhook
callback, the poll handler, the payment-pending page's expiry check, user
cancellation, and BookingCreateView's own failure branch. -/

/-- A freshly created booking (views.py lines 233-240): status Pending,
payment_status Unpaid, amount_paid preset from the class price (0 for a
free trial), phone_number from the validated form field. -/
def initialBooking (bt : BookingType) (amt : ℚ) (phone : String) : Booking :=
  { booking_type := bt
    status := .Pending
    payment_status := .Unpaid
    amount_paid := amt
    transaction_id := none
    mpesa_receipt_number := none
    phone_number := some phone
    payment_attempts := 0
    last_payment_attempt := none
    payment_date := none
    confirmed_at := none
    cancelled_at := none
    expires_at := none
    notes := "" }

/-- The booking states reachable through the operations of the payment
pipeline.  The webhook step carries the lookup guard of views.py line 478
(the booking is found by `transaction_id = CheckoutRequestID`); the
view-failure step is BookingCreateView lines 271-275; the pending-page step
is payment_pending_view lines 308-309. -/
inductive Reachable : Booking → Prop
  | created (bt : BookingType) (amt : ℚ) (phone : String) :
      Reachable (initialBooking bt amt phone)
  | pay (b : Booking) (price : ℚ) (phone : String) (tEnv : TokenEnv)
      (outcomes : List AttemptOutcome) (log : List PaymentLogEntry) (now : Nat)
      (out : ProcOut) :
      Reachable b →
      process_class_payment b price phone tEnv outcomes log now = some out →
      Reachable out.booking
  | callback (b : Booking) (log : List PaymentLogEntry) (cb : StkCallback) (now : Nat) :
      Reachable b →
      b.transaction_id = some cb.checkout_request_id →
      Reachable (process_callback b log cb now).1
  | poll (b : Booking) (now : Nat) (q : Option QueryResult) (log : List PaymentLogEntry) :
      Reachable b →
      Reachable (check_payment_status b now q log).booking
  | cancel (b : Booking) (log : List PaymentLogEntry) (now : Nat) :
      Reachable b →
      Reachable (cancel_booking_view b log now).1
  | pendingPage (b : Booking) (now : Nat) :
      Reachable b →
      Reachable (payment_pending_expire b now)
  | createFail (b : Booking) (code : String) (now : Nat) (log : List PaymentLogEntry) :
      Reachable b →
      Reachable (booking_create_fail b code now log).1

/-- The part of invariant I1 that the code maintains: Confirmed and Paid
coincide, and a Confirmed booking has confirmed_at set. -/
def BookingInv (b : Booking) : Prop :=
  (b.status = .Confirmed ↔ b.payment_status = .Paid) ∧
  (b.status = .Confirmed → b.confirmed_at ≠ none)

lemma bookingInv_confirm_payment (b : Booking) (tid receipt : String) (now : Nat) :
    BookingInv (b.confirm_payment tid receipt now) := by
  simp [BookingInv, Booking.confirm_payment]

lemma bookingInv_mark_expired (b : Booking) :
    BookingInv b.mark_expired := by
  simp [BookingInv, Booking.mark_expired]

lemma bookingInv_process_callback (b : Booking) (log : List PaymentLogEntry)
    (cb : StkCallback) (now : Nat) :
    BookingInv (process_callback b log cb now).1 := by
  unfold process_callback
  split
  · exact bookingInv_confirm_payment ..
  · simp [BookingInv]

lemma bookingInv_poll (b : Booking) (now : Nat) (q : Option QueryResult)
    (log : List PaymentLogEntry) (h : BookingInv b) :
    BookingInv (check_payment_status b now q log).booking := by
  unfold check_payment_status
  split
  · exact h
  split
  · exact h
  split
  · split
    · exact bookingInv_mark_expired ..
    · exact h
  split
  · split
    · split
      · split
        · split
          · exact bookingInv_confirm_payment ..
          split
          · simp [BookingInv]
          · exact h
        · exact h
      · exact h
    · exact h
  · exact h

lemma bookingInv_cancel_view (b : Booking) (log : List PaymentLogEntry) (now : Nat)
    (h : BookingInv b) :
    BookingInv (cancel_booking_view b log now).1 := by
  unfold cancel_booking_view
  split
  · dsimp only
    split
    · simp [BookingInv, Booking.cancel_booking]
    · simp_all [BookingInv, Booking.cancel_booking]
  · exact h

lemma bookingInv_pending_expire (b : Booking) (now : Nat) (h : BookingInv b) :
    BookingInv (payment_pending_expire b now) := by
  unfold payment_pending_expire
  split
  · exact bookingInv_mark_expired ..
  · exact h

lemma bookingInv_pay (b : Booking) (price : ℚ) (phone : String) (tEnv : TokenEnv)
    (outcomes : List AttemptOutcome) (log : List PaymentLogEntry) (now : Nat)
    (out : ProcOut) (h : BookingInv b)
    (hp : process_class_payment b price phone tEnv outcomes log now = some out) :
    BookingInv out.booking := by
  unfold process_class_payment at hp
  split at hp
  · cases hp
    simp [BookingInv]
  · dsimp only at hp
    split at hp
    · cases hp
      exact h
    · rcases hstk : stk_push tEnv outcomes phone price with ⟨res, tr⟩
      rw [hstk] at hp
      match res with
      | none => simp at hp
      | some (.ok cid ph) =>
        dsimp only at hp
        cases hp
        simp [BookingInv]
      | some (.err code) =>
        dsimp only at hp
        cases hp
        simp [BookingInv]

/-- Every reachable booking satisfies the maintained part of invariant I1. -/
lemma reachable_inv (b : Booking) (h : Reachable b) : BookingInv b := by
  induction h with
  | created bt amt phone => simp [BookingInv, initialBooking]
  | pay b price phone tEnv outcomes log now out _ hp ih =>
      exact bookingInv_pay b price phone tEnv outcomes log now out ih hp
  | callback b log cb now _ _ _ => exact bookingInv_process_callback ..
  | poll b now q log _ ih => exact bookingInv_poll b now q log ih
  | cancel b log now _ ih => exact bookingInv_cancel_view b log now ih
  | pendingPage b now _ ih => exact bookingInv_pending_expire b now ih
  | createFail b code now log _ _ => simp [BookingInv, booking_create_fail]

/-! ## Claim theorems -/

/-- C4: for every reachable booking whose persisted state is already
terminal (Confirmed, Cancelled, or Expired) or whose payment has failed,
check_payment_status returns that state immediately — booking and audit
trail unchanged — and never issues a gateway status query. -/
theorem C4_no_requery_after_terminal (b : Booking) (now : Nat)
    (q : Option QueryResult) (log : List PaymentLogEntry) (hr : Reachable b)
    (hterm : b.status = .Confirmed ∨ b.status = .Cancelled ∨ b.status = .Expired ∨
      b.payment_status = .Failed) :
    (check_payment_status b now q log).queried = false ∧
    (check_payment_status b now q log).booking = b ∧
    (check_payment_status b now q log).log = log ∧
    (b.status = .Confirmed →
      (check_payment_status b now q log).response
        = .confirmedResp (b.mpesa_receipt_number.getD "")) ∧
    (b.status ≠ .Confirmed →
      (check_payment_status b now q log).response
        = .failedResp b.payment_status b.status) := by
  by_cases hc : b.status = .Confirmed
  · have hpaid : b.payment_status = .Paid := (reachable_inv b hr).1.mp hc
    simp [check_payment_status, hc, hpaid]
  · have h2 : b.payment_status = .Failed ∨ b.status = .Cancelled ∨ b.status = .Expired := by
      tauto
    unfold check_payment_status
    rw [if_neg (by simp [hc]), if_pos h2]
    simp [hc]

/-- The terminal Confirmed/Paid booking a free-trial run of
process_class_payment produces at time 7 from a fresh booking. -/
def c4Confirmed : Booking :=
  { booking_type := .FreeTrial
    status := .Confirmed
    payment_status := .Paid
    amount_paid := 0
    transaction_id := none
    mpesa_receipt_number := none
    phone_number := some "254712345678"
    payment_attempts := 0
    last_payment_attempt := none
    payment_date := some 7
    confirmed_at := some 7
    cancelled_at := none
    expires_at := none
    notes := "" }

theorem C4_witness :
    (check_payment_status c4Confirmed 0 none []).queried = false ∧
    (check_payment_status c4Confirmed 0 none []).booking = c4Confirmed := by
  have hr : Reachable c4Confirmed := by
    have h := Reachable.pay (initialBooking .FreeTrial 0 "254712345678") 0
      "0712345678" ⟨none, []⟩ [] [] 7
      ⟨c4Confirmed, [⟨"free_trial_confirmed", "FREE_TRIAL"⟩], .freeTrialOk, ⟨0, 0, 0⟩⟩
      (Reachable.created ..) (by decide)
    exact h
  have h := C4_no_requery_after_terminal c4Confirmed 0 none [] hr (Or.inl rfl)
  exact ⟨h.1, h.2.1⟩

/-- C5: a failed gateway status query (query_transaction returning None, or
a provider response without a ResultCode) on a booking polled while
Pending/Pending leaves the booking and the audit trail unchanged and
reports "still pending". -/
theorem C5_query_failure_still_pending (b : Booking) (now : Nat)
    (log : List PaymentLogEntry) (tid : String)
    (hpay : b.payment_status = .Pending) (hst : b.status = .Pending)
    (htid : b.transaction_id = some tid)
    (hexp : b.is_payment_expired now = false) :
    check_payment_status b now none log = ⟨b, log, .pendingResp, true⟩ ∧
    (∀ r : QueryResult, r.result_code = none →
      check_payment_status b now (some r) log = ⟨b, log, .pendingResp, true⟩) := by
  constructor
  · simp [check_payment_status, hpay, hst, htid, hexp]
  · intro r hr
    simp [check_payment_status, hpay, hst, htid, hexp, hr]

theorem C5_witness :
    check_payment_status
      (Booking.mk .Monthly .Pending .Pending 1500 (some "X") none
        (some "254712345678") 1 (some 0) none none none (some 400) "") 200 none []
      = ⟨Booking.mk .Monthly .Pending .Pending 1500 (some "X") none
          (some "254712345678") 1 (some 0) none none none (some 400) "",
         [], .pendingResp, true⟩ :=
  (C5_query_failure_still_pending _ 200 [] "X" rfl rfl rfl (by decide)).1

/-- C10: the poll path's result-code policy for a Pending/Pending booking
with a stored transaction id whose status query succeeds: "0" confirms the
booking with the returned receipt recorded, "1" and "1032" leave it
untouched and still pending, and any other code cancels it with
paymentStatus Failed and cancelledAt set. -/
theorem C10_poll_result_code_policy (b : Booking) (now : Nat)
    (log : List PaymentLogEntry) (tid : String)
    (hpay : b.payment_status = .Pending) (hst : b.status = .Pending)
    (htid : b.transaction_id = some tid)
    (hexp : b.is_payment_expired now = false) :
    (∀ r : QueryResult, r.result_code = some "0" →
      check_payment_status b now (some r) log
        = ⟨b.confirm_payment tid r.receipt now,
           log ++ [⟨"payment_confirmed_via_query", "0"⟩],
           .confirmedResp r.receipt, true⟩) ∧
    (∀ r : QueryResult, r.result_code = some "1" ∨ r.result_code = some "1032" →
      check_payment_status b now (some r) log = ⟨b, log, .pendingResp, true⟩) ∧
    (∀ (r : QueryResult) (rc : String), r.result_code = some rc →
      rc ≠ "0" → rc ≠ "1" → rc ≠ "1032" →
      check_payment_status b now (some r) log
        = ⟨{ b with
              payment_status := .Failed
              status := .Cancelled
              cancelled_at := some now },
           log ++ [⟨"payment_failed_via_query", rc⟩],
           .failedResp .Failed .Cancelled, true⟩) := by
  refine ⟨?_, ?_, ?_⟩
  · intro r hr
    simp [check_payment_status, hpay, hst, htid, hexp, hr]
  · rintro r (hr | hr) <;>
      simp [check_payment_status, hpay, hst, htid, hexp, hr]
  · intro r rc hr h0 h1 h1032
    simp [check_payment_status, hpay, hst, htid, hexp, hr, h0, h1, h1032]

theorem C10_witness :
    check_payment_status
      (Booking.mk .Monthly .Pending .Pending 1500 (some "X") none
        (some "254712345678") 1 (some 0) none none none (some 400) "") 200
      (some ⟨some "0", "RCPT77"⟩) []
      = ⟨(Booking.mk .Monthly .Pending .Pending 1500 (some "X") none
            (some "254712345678") 1 (some 0) none none none (some 400)
            "").confirm_payment "X" "RCPT77" 200,
         [⟨"payment_confirmed_via_query", "0"⟩], .confirmedResp "RCPT77", true⟩ :=
  (C10_poll_result_code_policy _ 200 [] "X" rfl rfl rfl (by decide)).1 ⟨some "0", "RCPT77"⟩ rfl

/-- C6: processing the payment of a Free Trial booking confirms it
immediately — status Confirmed, payment Paid, amount_paid 0, confirmed_at
now — with zero gateway calls (no token request, no push, no query) and one
free_trial_confirmed audit entry. -/
theorem C6_free_trial_bypass (b : Booking) (price : ℚ) (phone : String)
    (tEnv : TokenEnv) (outcomes : List AttemptOutcome)
    (log : List PaymentLogEntry) (now : Nat)
    (hft : b.booking_type = .FreeTrial) :
    process_class_payment b price phone tEnv outcomes log now =
      some ⟨{ b with
          payment_status := .Paid
          status := .Confirmed
          amount_paid := 0
          payment_date := some now
          confirmed_at := some now },
        log ++ [⟨"free_trial_confirmed", "FREE_TRIAL"⟩], .freeTrialOk, ⟨0, 0, 0⟩⟩ := by
  simp [process_class_payment, hft]

theorem C6_witness :
    process_class_payment (initialBooking .FreeTrial 0 "254712345678") 1500
      "0712345678" ⟨some "tok", []⟩ [] [] 5 =
      some ⟨{ initialBooking .FreeTrial 0 "254712345678" with
          payment_status := .Paid
          status := .Confirmed
          amount_paid := 0
          payment_date := some 5
          confirmed_at := some 5 },
        [⟨"free_trial_confirmed", "FREE_TRIAL"⟩], .freeTrialOk, ⟨0, 0, 0⟩⟩ :=
  C6_free_trial_bypass _ 1500 "0712345678" ⟨some "tok", []⟩ [] [] 5 rfl

/-- C7: stk_push validates the phone number and the amount before any
network interaction — an invalid phone or a non-positive amount yields a
local INVALID_PHONE / INVALID_AMOUNT error with zero gateway calls; the
local format "0712345678" normalizes to "254712345678"; and a successful
initiation leaves the booking Pending/Pending with expires_at = now + 300
seconds (5 minutes). -/
theorem C7_local_validation :
    (∀ (tEnv : TokenEnv) (outcomes : List AttemptOutcome) (phone : String) (amount : ℚ),
      validate_phone_number phone = none →
      stk_push tEnv outcomes phone amount = (some (.err "INVALID_PHONE"), ⟨0, 0, 0⟩)) ∧
    (∀ (tEnv : TokenEnv) (outcomes : List AttemptOutcome) (phone ph : String) (amount : ℚ),
      validate_phone_number phone = some ph → pyInt amount < 1 →
      stk_push tEnv outcomes phone amount = (some (.err "INVALID_AMOUNT"), ⟨0, 0, 0⟩)) ∧
    validate_phone_number "0712345678" = some "254712345678" ∧
    (∀ (b : Booking) (price : ℚ) (phone : String) (tEnv : TokenEnv)
        (outcomes : List AttemptOutcome) (log : List PaymentLogEntry) (now : Nat)
        (out : ProcOut) (cid : String),
      process_class_payment b price phone tEnv outcomes log now = some out →
      out.result = .initiated cid →
      out.booking.payment_status = .Pending ∧ out.booking.status = .Pending ∧
      out.booking.expires_at = some (now + 300)) := by
  refine ⟨?_, ?_, by decide, ?_⟩
  · intro tEnv outcomes phone amount h
    simp [stk_push, h]
  · intro tEnv outcomes phone ph amount hph hamt
    simp [stk_push, hph, hamt]
  · intro b price phone tEnv outcomes log now out cid hp hres
    unfold process_class_payment at hp
    split at hp
    · cases hp
      simp at hres
    · dsimp only at hp
      split at hp
      · cases hp
        simp at hres
      · rcases hstk : stk_push tEnv outcomes phone price with ⟨res, tr⟩
        rw [hstk] at hp
        match res with
        | none => simp at hp
        | some (.ok c ph) =>
          dsimp only at hp
          cases hp
          simp
        | some (.err code) =>
          dsimp only at hp
          cases hp
          simp at hres

/-- The outcome of a concrete successful initiation, used to witness the
success clause of C7. -/
def c7InitiatedOut : ProcOut :=
  ⟨{ initialBooking .Monthly 1500 "254712345678" with
      payment_attempts := 1
      last_payment_attempt := some 10
      transaction_id := some "CRID"
      phone_number := some "254712345678"
      amount_paid := 1500
      payment_status := .Pending
      status := .Pending
      expires_at := some 310 },
    [⟨"payment_initiated", "INITIATED"⟩, ⟨"stk_push_sent", "SUCCESS"⟩],
    .initiated "CRID", ⟨0, 1, 0⟩⟩

theorem C7_witness :
    stk_push ⟨some "tok", []⟩ [] "12" 100 = (some (.err "INVALID_PHONE"), ⟨0, 0, 0⟩) ∧
    stk_push ⟨some "tok", []⟩ [] "0712345678" 0 = (some (.err "INVALID_AMOUNT"), ⟨0, 0, 0⟩) ∧
    validate_phone_number "0712345678" = some "254712345678" ∧
    (c7InitiatedOut.booking.payment_status = .Pending ∧
     c7InitiatedOut.booking.status = .Pending ∧
     c7InitiatedOut.booking.expires_at = some (10 + 300)) :=
  ⟨C7_local_validation.1 ⟨some "tok", []⟩ [] "12" 100 (by decide),
   C7_local_validation.2.1 ⟨some "tok", []⟩ [] "0712345678" "254712345678" 0
     (by decide) (by decide),
   C7_local_validation.2.2.1,
   C7_local_validation.2.2.2 (initialBooking .Monthly 1500 "254712345678") 1500
     "0712345678" ⟨some "tok", []⟩ [.ok200 "0" "CRID"] [] 10 c7InitiatedOut "CRID"
     (by decide) (by decide)⟩

lemma int_zero_toString : toString (0 : Int) = "0" := rfl

/-- A Pending/Pending booking awaiting its payment, as process_callback
finds it by transaction id "X". -/
def c1B0 : Booking :=
  ⟨.Monthly, .Pending, .Pending, 1500, some "X", none, some "254712345678",
   1, some 0, none, none, none, none, ""⟩

/-- A successful stkCallback delivery for request "X" with receipt ABC123. -/
def c1CB : StkCallback :=
  ⟨0, "X", "The service request is processed successfully.",
   [("MpesaReceiptNumber", "ABC123")]⟩

/-- C1 fails on the code: processing the same successful webhook delivery a
second time re-runs confirm_payment, so confirmed_at moves from the first
processing time (100) to the second (200), and the two deliveries append
four audit entries, not one transition entry plus one no-op entry. -/
theorem C1_counterexample :
    (process_callback c1B0 [] c1CB 100).1.confirmed_at = some 100 ∧
    (process_callback (process_callback c1B0 [] c1CB 100).1
        (process_callback c1B0 [] c1CB 100).2 c1CB 200).1.confirmed_at = some 200 ∧
    (process_callback (process_callback c1B0 [] c1CB 100).1
        (process_callback c1B0 [] c1CB 100).2 c1CB 200).1.confirmed_at
      ≠ (process_callback c1B0 [] c1CB 100).1.confirmed_at ∧
    (process_callback (process_callback c1B0 [] c1CB 100).1
        (process_callback c1B0 [] c1CB 100).2 c1CB 200).2.length = 4 := by decide

/-- C1 amended: a second identical successful webhook delivery leaves the
booking Confirmed/Paid but re-stamps confirmed_at with the second
processing time, and each delivery appends two audit entries
(callback_received and payment_confirmed), so the two deliveries produce
four entries and none records a no-op. -/
theorem C1_amended (b : Booking) (log : List PaymentLogEntry) (cb : StkCallback)
    (now1 now2 : Nat) (h0 : cb.result_code = 0) :
    (process_callback (process_callback b log cb now1).1
        (process_callback b log cb now1).2 cb now2).1.status = .Confirmed ∧
    (process_callback (process_callback b log cb now1).1
        (process_callback b log cb now1).2 cb now2).1.payment_status = .Paid ∧
    (process_callback (process_callback b log cb now1).1
        (process_callback b log cb now1).2 cb now2).1.confirmed_at = some now2 ∧
    (process_callback (process_callback b log cb now1).1
        (process_callback b log cb now1).2 cb now2).1.mpesa_receipt_number
      = some (extract_receipt cb.metadata) ∧
    (process_callback (process_callback b log cb now1).1
        (process_callback b log cb now1).2 cb now2).2
      = log ++ [⟨"callback_received", "0"⟩, ⟨"payment_confirmed", "0"⟩,
                ⟨"callback_received", "0"⟩, ⟨"payment_confirmed", "0"⟩] := by
  simp [process_callback, h0, int_zero_toString, Booking.confirm_payment]

theorem C1_amended_witness :
    (process_callback (process_callback c1B0 [] c1CB 100).1
        (process_callback c1B0 [] c1CB 100).2 c1CB 200).1.status = .Confirmed ∧
    (process_callback (process_callback c1B0 [] c1CB 100).1
        (process_callback c1B0 [] c1CB 100).2 c1CB 200).1.payment_status = .Paid ∧
    (process_callback (process_callback c1B0 [] c1CB 100).1
        (process_callback c1B0 [] c1CB 100).2 c1CB 200).1.confirmed_at = some 200 ∧
    (process_callback (process_callback c1B0 [] c1CB 100).1
        (process_callback c1B0 [] c1CB 100).2 c1CB 200).1.mpesa_receipt_number
      = some "ABC123" ∧
    (process_callback (process_callback c1B0 [] c1CB 100).1
        (process_callback c1B0 [] c1CB 100).2 c1CB 200).2
      = [⟨"callback_received", "0"⟩, ⟨"payment_confirmed", "0"⟩,
         ⟨"callback_received", "0"⟩, ⟨"payment_confirmed", "0"⟩] := by
  have h := C1_amended c1B0 [] c1CB 100 200 rfl
  simpa using h

/-- A Pending/Pending booking whose 5-minute payment window (expires_at =
100) has already passed at the times used below. -/
def c2B0 : Booking :=
  ⟨.Monthly, .Pending, .Pending, 1500, some "X", none, some "254712345678",
   1, some 0, none, none, none, some 100, ""⟩

def c2CB : StkCallback :=
  ⟨0, "X", "The service request is processed successfully.",
   [("MpesaReceiptNumber", "ABC123")]⟩

/-- C2 fails on the code: the webhook path checks no deadline, so a
successful delivery arriving at time 200 — after expires_at = 100 has
passed — still confirms the booking instead of being a no-op. -/
theorem C2_counterexample :
    c2B0.is_payment_expired 200 = true ∧
    (process_callback c2B0 [] c2CB 200).1.status = .Confirmed ∧
    (process_callback c2B0 [] c2CB 200).1 ≠ c2B0 := by decide

/-- C2 amended: once expires_at has passed, the poll handler performs no
transition other than expire (a Pending/Pending booking is marked Expired
with no gateway query), and re-running mark_expired on an Expired booking
changes nothing but the notes text; the webhook path, however, ignores the
deadline entirely: a late successful delivery still confirms the booking. -/
theorem C2_amended :
    (∀ (b : Booking) (now : Nat) (q : Option QueryResult) (log : List PaymentLogEntry),
      b.is_payment_expired now = true → b.status = .Pending →
      b.payment_status = .Pending →
      check_payment_status b now q log = ⟨b.mark_expired, log, .expiredResp, false⟩) ∧
    (∀ b : Booking, b.status = .Expired → b.payment_status = .Failed →
      b.mark_expired.status = b.status ∧
      b.mark_expired.payment_status = b.payment_status ∧
      b.mark_expired.confirmed_at = b.confirmed_at ∧
      b.mark_expired.cancelled_at = b.cancelled_at ∧
      b.mark_expired.expires_at = b.expires_at ∧
      b.mark_expired.transaction_id = b.transaction_id ∧
      b.mark_expired.amount_paid = b.amount_paid) ∧
    (∀ (b : Booking) (log : List PaymentLogEntry) (cb : StkCallback) (now : Nat),
      cb.result_code = 0 →
      (process_callback b log cb now).1.status = .Confirmed ∧
      (process_callback b log cb now).1.payment_status = .Paid) := by
  refine ⟨?_, ?_, ?_⟩
  · intro b now q log hexp hst hpay
    simp [check_payment_status, hexp, hst, hpay]
  · intro b hst hpay
    simp [Booking.mark_expired, hst, hpay]
  · intro b log cb now h0
    simp [process_callback, h0, Booking.confirm_payment]

theorem C2_amended_witness :
    check_payment_status c2B0 200 none [] = ⟨c2B0.mark_expired, [], .expiredResp, false⟩ ∧
    (c2B0.mark_expired.mark_expired.status = c2B0.mark_expired.status ∧
     c2B0.mark_expired.mark_expired.payment_status = c2B0.mark_expired.payment_status ∧
     c2B0.mark_expired.mark_expired.confirmed_at = c2B0.mark_expired.confirmed_at ∧
     c2B0.mark_expired.mark_expired.cancelled_at = c2B0.mark_expired.cancelled_at ∧
     c2B0.mark_expired.mark_expired.expires_at = c2B0.mark_expired.expires_at ∧
     c2B0.mark_expired.mark_expired.transaction_id = c2B0.mark_expired.transaction_id ∧
     c2B0.mark_expired.mark_expired.amount_paid = c2B0.mark_expired.amount_paid) ∧
    ((process_callback c2B0 [] c2CB 200).1.status = .Confirmed ∧
     (process_callback c2B0 [] c2CB 200).1.payment_status = .Paid) :=
  ⟨C2_amended.1 c2B0 200 none [] (by decide) rfl rfl,
   C2_amended.2.1 c2B0.mark_expired (by decide) (by decide),
   C2_amended.2.2 c2B0 [] c2CB 200 rfl⟩

/-- The Confirmed/Paid booking a free-trial run produces at time 7. -/
def c3Confirmed : Booking :=
  { booking_type := .FreeTrial
    status := .Confirmed
    payment_status := .Paid
    amount_paid := 0
    transaction_id := none
    mpesa_receipt_number := none
    phone_number := some "254712345678"
    payment_attempts := 0
    last_payment_attempt := none
    payment_date := some 7
    confirmed_at := some 7
    cancelled_at := none
    expires_at := none
    notes := "" }

/-- The state of c3Confirmed after the user cancels it at time 9:
Cancelled/Refunded, but confirmed_at is still set. -/
def c3Bad : Booking :=
  { booking_type := .FreeTrial
    status := .Cancelled
    payment_status := .Refunded
    amount_paid := 0
    transaction_id := none
    mpesa_receipt_number := none
    phone_number := some "254712345678"
    payment_attempts := 0
    last_payment_attempt := none
    payment_date := some 7
    confirmed_at := some 7
    cancelled_at := some 9
    expires_at := none
    notes := "Cancellation reason: User requested cancellation" }

/-- C3 fails on the code: cancelling a confirmed booking (create → free
trial confirm → user cancel) reaches a state that is Cancelled/Refunded
while confirmed_at is still set, breaking the confirmedAt ⇔ Confirmed leg
of invariant I1. -/
theorem C3_counterexample :
    Reachable c3Bad ∧ c3Bad.confirmed_at = some 7 ∧ c3Bad.status = .Cancelled ∧
    c3Bad.payment_status = .Refunded ∧
    ¬(c3Bad.status = .Confirmed ↔ c3Bad.confirmed_at ≠ none) := by
  refine ⟨?_, rfl, rfl, rfl, by decide⟩
  have h1 : Reachable c3Confirmed := by
    have h := Reachable.pay (initialBooking .FreeTrial 0 "254712345678") 0
      "0712345678" ⟨none, []⟩ [] [] 7
      ⟨c3Confirmed, [⟨"free_trial_confirmed", "FREE_TRIAL"⟩], .freeTrialOk, ⟨0, 0, 0⟩⟩
      (Reachable.created ..) (by decide)
    exact h
  have h2 := Reachable.cancel c3Confirmed [] 9 h1
  have he : (cancel_booking_view c3Confirmed [] 9).1 = c3Bad := by decide
  exact he ▸ h2

/-- C3 amended: in every reachable booking state, status = Confirmed holds
exactly when paymentStatus = Paid, and a Confirmed booking has confirmed_at
set; the remaining leg of I1 (confirmed_at set only while Confirmed) does
not hold, per the counterexample. -/
theorem C3_amended (b : Booking) (h : Reachable b) :
    (b.status = .Confirmed ↔ b.payment_status = .Paid) ∧
    (b.status = .Confirmed → b.confirmed_at ≠ none) :=
  reachable_inv b h

theorem C3_amended_witness :
    ((initialBooking .Monthly 1500 "254712345678").status = .Confirmed ↔
      (initialBooking .Monthly 1500 "254712345678").payment_status = .Paid) ∧
    ((initialBooking .Monthly 1500 "254712345678").status = .Confirmed →
      (initialBooking .Monthly 1500 "254712345678").confirmed_at ≠ none) :=
  C3_amended _ (Reachable.created .Monthly 1500 "254712345678")

/-- A fresh Monthly booking about to attempt payment. -/
def c8B0 : Booking := initialBooking .Monthly 1500 "254712345678"

/-- C8 fails on the code: an STK push whose three HTTP attempts all time
out ends the booking Cancelled/Failed, but the retries write no audit
entries — the attempt leaves exactly two PaymentLog rows
(payment_initiated and stk_push_failed), not four. -/
theorem C8_counterexample :
    process_class_payment c8B0 1500 "0712345678" ⟨some "tok", []⟩
        [.timeout, .timeout, .timeout] [] 50
      = some ⟨{ c8B0 with
            payment_attempts := 1
            last_payment_attempt := some 50
            payment_status := .Failed
            status := .Cancelled
            notes := "Payment failed: TIMEOUT"
            cancelled_at := some 50 },
          [⟨"payment_initiated", "INITIATED"⟩, ⟨"stk_push_failed", "TIMEOUT"⟩],
          .failed "TIMEOUT", ⟨0, 3, 0⟩⟩ ∧
    ([(⟨"payment_initiated", "INITIATED"⟩ : PaymentLogEntry),
      ⟨"stk_push_failed", "TIMEOUT"⟩]).length ≠ 4 := by decide

/-- C8 amended: when all 3 push attempts time out, the booking ends
Cancelled/Failed with a TIMEOUT error after exactly 3 HTTP attempts, and
exactly 2 audit entries exist for the attempt — payment_initiated and
stk_push_failed — because the individual retries write none. -/
theorem C8_amended (b : Booking) (price : ℚ) (phone ph tok : String)
    (fetches : List (Option String)) (log : List PaymentLogEntry) (now : Nat)
    (hft : b.booking_type ≠ .FreeTrial) (hpos : ¬price ≤ 0)
    (hph : validate_phone_number phone = some ph) (hamt : ¬pyInt price < 1) :
    process_class_payment b price phone ⟨some tok, fetches⟩
        [.timeout, .timeout, .timeout] log now
      = some ⟨{ b with
            payment_attempts := b.payment_attempts + 1
            last_payment_attempt := some now
            payment_status := .Failed
            status := .Cancelled
            notes := "Payment failed: TIMEOUT"
            cancelled_at := some now },
          log ++ [⟨"payment_initiated", "INITIATED"⟩, ⟨"stk_push_failed", "TIMEOUT"⟩],
          .failed "TIMEOUT", ⟨0, 3, 0⟩⟩ := by
  simp [process_class_payment, hft, hpos, stk_push, hph, hamt, get_access_token,
    stk_push_loop]

theorem C8_witness :
    process_class_payment c8B0 1500 "0712345678" ⟨some "tok", []⟩
        [.timeout, .timeout, .timeout] [] 50
      = some ⟨{ c8B0 with
            payment_attempts := 1
            last_payment_attempt := some 50
            payment_status := .Failed
            status := .Cancelled
            notes := "Payment failed: TIMEOUT"
            cancelled_at := some 50 },
          [⟨"payment_initiated", "INITIATED"⟩, ⟨"stk_push_failed", "TIMEOUT"⟩],
          .failed "TIMEOUT", ⟨0, 3, 0⟩⟩ := by
  have h := C8_amended c8B0 1500 "0712345678" "254712345678" "tok" [] [] 50
    (by decide) (by decide) (by decide) (by decide)
  simpa using h

/-- A Pending/Pending booking whose payment window (expires_at = 100) has
passed when polled at time 200. -/
def c9B0 : Booking :=
  ⟨.Monthly, .Pending, .Pending, 1500, some "X", none, some "254712345678",
   1, some 0, none, none, none, some 100, ""⟩

/-- C9 fails on the code: the expire transition taken on the poll path
(mark_expired) changes the booking's state to Expired but writes zero audit
entries, not one. -/
theorem C9_counterexample :
    (check_payment_status c9B0 200 none []).booking.status = .Expired ∧
    (check_payment_status c9B0 200 none []).booking ≠ c9B0 ∧
    (check_payment_status c9B0 200 none []).log = [] := by decide

/-- C9 amended: the webhook confirm and fail transitions, the poll confirm
and fail transitions, user cancellation, initiation success,
gateway-rejected initiation failure and the free-trial confirmation each
write exactly one audit entry before returning (beyond the
callback_received / payment_initiated records of the triggering event); but
two transitions write none: the expire transition — in particular on the
poll path — and the Cancelled/Failed transition applied by
BookingCreateView's failure branch, reached e.g. when process_class_payment
rejects a non-positive class price, which itself returns without logging. -/
theorem C9_amended :
    (∀ (b : Booking) (now : Nat) (q : Option QueryResult) (log : List PaymentLogEntry),
      b.is_payment_expired now = true → b.status = .Pending →
      b.payment_status = .Pending →
      (check_payment_status b now q log).booking = b.mark_expired ∧
      (check_payment_status b now q log).log = log) ∧
    (∀ (b : Booking) (log : List PaymentLogEntry) (cb : StkCallback) (now : Nat),
      cb.result_code = 0 →
      (process_callback b log cb now).2
        = log ++ [⟨"callback_received", "0"⟩, ⟨"payment_confirmed", "0"⟩]) ∧
    (∀ (b : Booking) (log : List PaymentLogEntry) (cb : StkCallback) (now : Nat),
      cb.result_code ≠ 0 →
      (process_callback b log cb now).2
        = log ++ [⟨"callback_received", toString cb.result_code⟩,
                  ⟨"payment_failed", toString cb.result_code⟩]) ∧
    (∀ (b : Booking) (now : Nat) (log : List PaymentLogEntry) (tid : String)
        (r : QueryResult),
      b.payment_status = .Pending → b.status = .Pending →
      b.transaction_id = some tid → b.is_payment_expired now = false →
      r.result_code = some "0" →
      (check_payment_status b now (some r) log).log
        = log ++ [⟨"payment_confirmed_via_query", "0"⟩]) ∧
    (∀ (b : Booking) (now : Nat) (log : List PaymentLogEntry) (tid : String)
        (r : QueryResult) (rc : String),
      b.payment_status = .Pending → b.status = .Pending →
      b.transaction_id = some tid → b.is_payment_expired now = false →
      r.result_code = some rc → rc ≠ "0" → rc ≠ "1" → rc ≠ "1032" →
      (check_payment_status b now (some r) log).log
        = log ++ [⟨"payment_failed_via_query", rc⟩]) ∧
    (∀ (b : Booking) (log : List PaymentLogEntry) (now : Nat),
      b.status = .Confirmed ∨ b.status = .Pending →
      (cancel_booking_view b log now).2.1
        = log ++ [⟨"booking_cancelled", "USER_CANCEL"⟩]) ∧
    (∀ (b : Booking) (price : ℚ) (phone : String) (tEnv : TokenEnv)
        (outcomes : List AttemptOutcome) (log : List PaymentLogEntry) (now : Nat)
        (out : ProcOut) (cid : String),
      process_class_payment b price phone tEnv outcomes log now = some out →
      out.result = .initiated cid →
      out.log = log ++ [⟨"payment_initiated", "INITIATED"⟩,
                        ⟨"stk_push_sent", "SUCCESS"⟩]) ∧
    (∀ (b : Booking) (price : ℚ) (phone : String) (tEnv : TokenEnv)
        (outcomes : List AttemptOutcome) (log : List PaymentLogEntry) (now : Nat),
      b.booking_type = .FreeTrial →
      (process_class_payment b price phone tEnv outcomes log now).map ProcOut.log
        = some (log ++ [⟨"free_trial_confirmed", "FREE_TRIAL"⟩])) ∧
    (∀ (b : Booking) (price : ℚ) (phone : String) (tEnv : TokenEnv)
        (outcomes : List AttemptOutcome) (log : List PaymentLogEntry)
        (now : Nat) (code : String),
      b.booking_type ≠ .FreeTrial → price ≤ 0 →
      process_class_payment b price phone tEnv outcomes log now
        = some ⟨b, log, .failed "INVALID_AMOUNT", ⟨0, 0, 0⟩⟩ ∧
      (booking_create_fail b code now log).1.status = .Cancelled ∧
      (booking_create_fail b code now log).1.payment_status = .Failed ∧
      (booking_create_fail b code now log).2 = log) ∧
    (∀ (b : Booking) (price : ℚ) (phone : String) (tEnv : TokenEnv)
        (outcomes : List AttemptOutcome) (log : List PaymentLogEntry)
        (now : Nat) (code : String) (tr : CallTrace),
      b.booking_type ≠ .FreeTrial → ¬price ≤ 0 →
      stk_push tEnv outcomes phone price = (some (.err code), tr) →
      process_class_payment b price phone tEnv outcomes log now
        = some ⟨{ b with
              payment_attempts := b.payment_attempts + 1
              last_payment_attempt := some now
              payment_status := .Failed
              status := .Cancelled
              notes := "Payment failed: " ++ code
              cancelled_at := some now },
            log ++ [⟨"payment_initiated", "INITIATED"⟩, ⟨"stk_push_failed", code⟩],
            .failed code, tr⟩) := by
  refine ⟨?_, ?_, ?_, ?_, ?_, ?_, ?_, ?_, ?_, ?_⟩
  · intro b now q log hexp hst hpay
    simp [check_payment_status, hexp, hst, hpay]
  · intro b log cb now h0
    simp [process_callback, h0, int_zero_toString]
  · intro b log cb now h0
    simp [process_callback, h0]
  · intro b now log tid r hpay hst htid hexp hr
    simp [check_payment_status, hpay, hst, htid, hexp, hr]
  · intro b now log tid r rc hpay hst htid hexp hr h0 h1 h1032
    simp [check_payment_status, hpay, hst, htid, hexp, hr, h0, h1, h1032]
  · intro b log now hcan
    unfold cancel_booking_view
    rw [if_pos hcan]
    dsimp only
    split <;> rfl
  · intro b price phone tEnv outcomes log now out cid hp hres
    unfold process_class_payment at hp
    split at hp
    · cases hp
      simp at hres
    · dsimp only at hp
      split at hp
      · cases hp
        simp at hres
      · rcases hstk : stk_push tEnv outcomes phone price with ⟨res, tr⟩
        rw [hstk] at hp
        match res with
        | none => simp at hp
        | some (.ok c ph) =>
          dsimp only at hp
          cases hp
          simp
        | some (.err code) =>
          dsimp only at hp
          cases hp
          simp at hres
  · intro b price phone tEnv outcomes log now hft
    simp [process_class_payment, hft]
  · intro b price phone tEnv outcomes log now code hft hle
    exact ⟨by simp [process_class_payment, hft, hle],
      by simp [booking_create_fail], by simp [booking_create_fail],
      by simp [booking_create_fail]⟩
  · intro b price phone tEnv outcomes log now code tr hft hpos hstk
    simp [process_class_payment, hft, hpos, hstk]

theorem C9_witness :
    ((check_payment_status c9B0 200 none []).booking = c9B0.mark_expired ∧
     (check_payment_status c9B0 200 none []).log = []) ∧
    (process_callback c9B0 [] ⟨0, "X", "ok", [("MpesaReceiptNumber", "R")]⟩ 200).2
      = [⟨"callback_received", "0"⟩, ⟨"payment_confirmed", "0"⟩] ∧
    (process_callback c9B0 [] ⟨1032, "X", "timeout", []⟩ 200).2
      = [⟨"callback_received", "1032"⟩, ⟨"payment_failed", "1032"⟩] ∧
    (cancel_booking_view c9B0 [] 200).2.1
      = [⟨"booking_cancelled", "USER_CANCEL"⟩] ∧
    (process_class_payment (initialBooking .FreeTrial 0 "254712345678") 5
        "0712345678" ⟨some "tok", []⟩ [] [] 3).map ProcOut.log
      = some [⟨"free_trial_confirmed", "FREE_TRIAL"⟩] ∧
    (process_class_payment (initialBooking .Monthly 1500 "254712345678") 0
        "0712345678" ⟨some "tok", []⟩ [] [] 3
      = some ⟨initialBooking .Monthly 1500 "254712345678", [],
              .failed "INVALID_AMOUNT", ⟨0, 0, 0⟩⟩ ∧
     (booking_create_fail (initialBooking .Monthly 1500 "254712345678")
        "INVALID_AMOUNT" 3 []).1.status = .Cancelled ∧
     (booking_create_fail (initialBooking .Monthly 1500 "254712345678")
        "INVALID_AMOUNT" 3 []).1.payment_status = .Failed ∧
     (booking_create_fail (initialBooking .Monthly 1500 "254712345678")
        "INVALID_AMOUNT" 3 []).2 = []) ∧
    (process_class_payment (initialBooking .Monthly 2000 "254700000001") 2000
        "254700000001" ⟨some "tok", []⟩ [.netErr, .netErr, .netErr] [] 4
      = some ⟨{ initialBooking .Monthly 2000 "254700000001" with
            payment_attempts := 1
            last_payment_attempt := some 4
            payment_status := .Failed
            status := .Cancelled
            notes := "Payment failed: NETWORK_ERROR"
            cancelled_at := some 4 },
          [⟨"payment_initiated", "INITIATED"⟩, ⟨"stk_push_failed", "NETWORK_ERROR"⟩],
          .failed "NETWORK_ERROR", ⟨0, 3, 0⟩⟩) := by
  refine ⟨C9_amended.1 c9B0 200 none [] (by decide) rfl rfl, ?_, ?_, ?_, ?_, ?_, ?_⟩
  · have h := C9_amended.2.1 c9B0 [] ⟨0, "X", "ok", [("MpesaReceiptNumber", "R")]⟩ 200 rfl
    simpa using h
  · have h := C9_amended.2.2.1 c9B0 [] ⟨1032, "X", "timeout", []⟩ 200 (by decide)
    simpa using h
  · exact C9_amended.2.2.2.2.2.1 c9B0 [] 200 (Or.inr rfl)
  · have h := C9_amended.2.2.2.2.2.2.2.1 (initialBooking .FreeTrial 0 "254712345678")
      5 "0712345678" ⟨some "tok", []⟩ [] [] 3 rfl
    simpa using h
  · have h := C9_amended.2.2.2.2.2.2.2.2.1 (initialBooking .Monthly 1500 "254712345678")
      0 "0712345678" ⟨some "tok", []⟩ [] [] 3 "INVALID_AMOUNT" (by decide) (by decide)
    simpa using h
  · have h := C9_amended.2.2.2.2.2.2.2.2.2 (initialBooking .Monthly 2000 "254700000001")
      2000 "254700000001" ⟨some "tok", []⟩ [.netErr, .netErr, .netErr] [] 4
      "NETWORK_ERROR" ⟨0, 3, 0⟩ (by decide) (by decide) (by decide)
    simpa using h
